import Mathlib

/-!
Verification of the secure-unlock state machine (`SecureUnlockProvider.tsx`) and of the
credential-issuance flow (`ReceivePidUseCaseCFlow.retrieveCredentials`) of the
paradym-wallet repository, as a shallow embedding in Lean.

The React hook `_useSecureUnlockState` keeps its state in `useState` cells; we model one
render snapshot of those cells as a record `UnlockMachine`.  Each operation of the hook is
modelled as a pure function from the pre-call snapshot (and the outcome of the opaque
secure-store call it performs) to the post-call stored state and the operation's return
value.  Reads of a state variable inside an operation's callback see the render snapshot
(the closure-captured value), while `setX` calls land on the stored state that the next
render observes; the model reads all variables from the input record and builds the output
record from the queued updates, which reproduces exactly that semantics.
-/

/-- The five values of the `SecureUnlockState` string union in the source. -/
inductive SecureUnlockState where
  | initializing
  | notConfigured
  | locked
  | acquiredWalletKey
  | unlocked
deriving DecidableEq, Repr

/-- The `SecureUnlockMethod` string union: `'pin' | 'biometrics'`. -/
inductive SecureUnlockMethod where
  | pin
  | biometrics
deriving DecidableEq, Repr

/-- One render snapshot of the eight `useState` cells of `_useSecureUnlockState`.
`walletKey`, `canUseBiometrics`, `unlockMethod` and `context` start out `undefined`
(`none`); `canTryUnlockingUsingBiometrics` starts `true`, `biometricsUnlockAttempts`
starts `0`, `isUnlocking` starts `false`, `state` starts `'initializing'`. -/
structure UnlockMachine (Context : Type) where
  state : SecureUnlockState
  walletKey : Option String
  canTryUnlockingUsingBiometrics : Bool
  biometricsUnlockAttempts : Nat
  canUseBiometrics : Option Bool
  unlockMethod : Option SecureUnlockMethod
  context : Option Context
  isUnlocking : Bool
deriving DecidableEq, Repr

/-- The initial values passed to the `useState` calls. -/
def initialMachine {Context : Type} : UnlockMachine Context where
  state := .initializing
  walletKey := none
  canTryUnlockingUsingBiometrics := true
  biometricsUnlockAttempts := 0
  canUseBiometrics := none
  unlockMethod := none
  context := none
  isUnlocking := false

/-- The `reinitialize` closure: resets every state cell to its initial value and returns
to `'initializing'`. -/
def reinitialize {Context : Type} (_m : UnlockMachine Context) : UnlockMachine Context :=
  initialMachine

/-- The `queryFn` of the `useQuery` block (enabled while `state === 'initializing'`):
given the store's salt (or its absence) and the device biometry capability, records
`canUseBiometrics` and `canTryUnlockingUsingBiometrics` and moves to `'locked'` when a
salt exists, else `'not-configured'`. -/
def initializeStep {Context : Type} (m : UnlockMachine Context) (salt : Option String)
    (canUse : Bool) : UnlockMachine Context :=
  { m with
    canUseBiometrics := some canUse
    canTryUnlockingUsingBiometrics := canUse
    state := if salt.isSome then .locked else .notConfigured }

/-- JavaScript truthiness of a `string | null | undefined` value: `null`/`undefined` and
the empty string are falsy. -/
def jsTruthy : Option String → Bool
  | none => false
  | some s => !s.isEmpty

/-- Reason attached to a `KeychainError` thrown by
`secureWalletKey.getWalletKeyUsingBiometrics`; the source only distinguishes
`'userCancelled'` from everything else (any other reason or any non-`KeychainError`). -/
inductive KeychainFailure where
  | userCancelled
  | other
deriving DecidableEq, Repr

/-- Outcome of the awaited `secureWalletKey.getWalletKeyUsingBiometrics` call: either it
resolves (possibly with no key) or it throws. -/
inductive BiometricStoreOutcome where
  | ok (key : Option String)
  | err (reason : KeychainFailure)
deriving DecidableEq, Repr

/-- The `tryUnlockingUsingBiometrics` closure of the `'locked'` branch.  Returns the
post-call stored state and the value returned to the caller.  Reads
(`canTryUnlockingUsingBiometrics`, and `biometricsUnlockAttempts` in the catch block) use
the render snapshot `m`; in particular the `biometricsUnlockAttempts > 3` guard in the
catch block compares the closure-captured pre-increment counter, while the functional
updater `(attempts) => attempts + 1` increments the stored counter. -/
def tryUnlockingUsingBiometrics {Context : Type} (m : UnlockMachine Context)
    (outcome : BiometricStoreOutcome) : UnlockMachine Context × Option String :=
  if !m.canTryUnlockingUsingBiometrics then (m, none)
  else
    let afterAttempt :=
      { m with biometricsUnlockAttempts := m.biometricsUnlockAttempts + 1 }
    match outcome with
    | .ok key =>
      if jsTruthy key then
        ({ afterAttempt with
            walletKey := key
            unlockMethod := some .biometrics
            state := .acquiredWalletKey
            isUnlocking := false }, key)
      else
        ({ afterAttempt with isUnlocking := false }, key)
    | .err reason =>
      if reason = .userCancelled then
        ({ afterAttempt with
            canTryUnlockingUsingBiometrics := false
            isUnlocking := false }, none)
      else if m.biometricsUnlockAttempts > 3 then
        ({ afterAttempt with
            canTryUnlockingUsingBiometrics := false
            isUnlocking := false }, none)
      else
        ({ afterAttempt with isUnlocking := false }, none)

/-- The `unlockUsingPin` closure of the `'locked'` branch.  The outcome of the awaited
`secureWalletKey.getWalletKeyUsingPin` call is passed in; on success the key is stored and
the machine moves to `'acquired-wallet-key'`, on failure the error propagates; the
`finally` block resets `isUnlocking` in both cases. -/
def unlockUsingPin {Context : Type} (m : UnlockMachine Context)
    (outcome : Except String String) :
    UnlockMachine Context × Except String String :=
  match outcome with
  | .error e => ({ m with isUnlocking := false }, .error e)
  | .ok key =>
    ({ m with
        walletKey := some key
        unlockMethod := some .pin
        state := .acquiredWalletKey
        isUnlocking := false }, .ok key)

/-- The `setWalletKeyInvalid` closure of the `'acquired-wallet-key'` branch: revokes
`canTryUnlockingUsingBiometrics` when the acquired method was biometrics, then clears the
key and method and returns to `'locked'`. -/
def setWalletKeyInvalid {Context : Type} (m : UnlockMachine Context) :
    UnlockMachine Context :=
  { m with
    canTryUnlockingUsingBiometrics :=
      if m.unlockMethod = some .biometrics then false
      else m.canTryUnlockingUsingBiometrics
    state := .locked
    walletKey := none
    unlockMethod := none }

/-- The `setWalletKeyValid` closure of the `'acquired-wallet-key'` branch.  It stores the
context and moves to `'unlocked'` before the conditional awaited
`secureWalletKey.storeWalletKey` call; `storeOutcome` is that call's outcome, consulted
only when the persistence condition `canUseBiometrics && options.enableBiometrics` holds
(`canUseBiometrics : boolean | undefined`, so `undefined` is falsy).  Returns the stored
state, the call's overall outcome, and whether `storeWalletKey` was invoked. -/
def setWalletKeyValid {Context : Type} (m : UnlockMachine Context) (ctx : Context)
    (enableBiometrics : Bool) (storeOutcome : Except String Unit) :
    UnlockMachine Context × Except String Unit × Bool :=
  let moved := { m with context := some ctx, state := SecureUnlockState.unlocked }
  if m.canUseBiometrics.getD false && enableBiometrics then
    (moved, storeOutcome, true)
  else
    (moved, .ok (), false)

/-- The `lock` closure of the `'unlocked'` branch. -/
def lock {Context : Type} (m : UnlockMachine Context) : UnlockMachine Context :=
  { m with state := .locked, walletKey := none, unlockMethod := none, context := none }

/-- The `setup` closure of the `'not-configured'` branch: after
`createAndStoreSalt`, the outcome of `getWalletKeyUsingPin` decides whether the machine
advances to `'acquired-wallet-key'` with method `'pin'`. -/
def setup {Context : Type} (m : UnlockMachine Context) (outcome : Except String String) :
    UnlockMachine Context × Except String String :=
  match outcome with
  | .error e => (m, .error e)
  | .ok key =>
    ({ m with
        walletKey := some key
        unlockMethod := some .pin
        state := .acquiredWalletKey }, .ok key)

/-- Names of the operations the hook can expose. -/
inductive OpName where
  | initQuery
  | setupOp
  | tryBiometricsOp
  | unlockPinOp
  | setKeyValidOp
  | setKeyInvalidOp
  | lockOp
  | reinitOp
deriving DecidableEq, Repr

/-- The operations exposed by the object the hook returns in each state, read off the
five return branches of `_useSecureUnlockState` (the `'initializing'` branch returns only
`{ state }`). -/
def availableOperations : SecureUnlockState → List OpName
  | .initializing => []
  | .notConfigured => [.setupOp, .reinitOp]
  | .locked => [.tryBiometricsOp, .unlockPinOp, .reinitOp]
  | .acquiredWalletKey => [.setKeyValidOp, .setKeyInvalidOp, .reinitOp]
  | .unlocked => [.lockOp, .reinitOp]

/-- Label of a machine step: which operation ran and whether it invoked
`secureWalletKey.storeWalletKey` (the only durable write of the wallet key anywhere in
the source). -/
structure StepLabel where
  op : OpName
  wroteKey : Bool
deriving DecidableEq, Repr

/-- One step of the machine: any exposed operation (or the automatic `initializing`
query) running with any outcome of its store calls, labelled with the operation's name
and whether it wrote the wallet key to durable storage. -/
inductive StepL (Context : Type) :
    UnlockMachine Context → StepLabel → UnlockMachine Context → Prop where
  | initQueryStep (m : UnlockMachine Context) (salt : Option String) (canUse : Bool)
      (h : m.state = .initializing) :
      StepL Context m ⟨.initQuery, false⟩ (initializeStep m salt canUse)
  | setupStep (m : UnlockMachine Context) (outcome : Except String String)
      (h : m.state = .notConfigured) :
      StepL Context m ⟨.setupOp, false⟩ (setup m outcome).1
  | tryBiometricsStep (m : UnlockMachine Context) (outcome : BiometricStoreOutcome)
      (h : m.state = .locked) :
      StepL Context m ⟨.tryBiometricsOp, false⟩ (tryUnlockingUsingBiometrics m outcome).1
  | unlockPinStep (m : UnlockMachine Context) (outcome : Except String String)
      (h : m.state = .locked) :
      StepL Context m ⟨.unlockPinOp, false⟩ (unlockUsingPin m outcome).1
  | setKeyValidStep (m : UnlockMachine Context) (ctx : Context) (enable : Bool)
      (storeOutcome : Except String Unit) (h : m.state = .acquiredWalletKey) :
      StepL Context m ⟨.setKeyValidOp, (setWalletKeyValid m ctx enable storeOutcome).2.2⟩
        (setWalletKeyValid m ctx enable storeOutcome).1
  | setKeyInvalidStep (m : UnlockMachine Context) (h : m.state = .acquiredWalletKey) :
      StepL Context m ⟨.setKeyInvalidOp, false⟩ (setWalletKeyInvalid m)
  | lockStep (m : UnlockMachine Context) (h : m.state = .unlocked) :
      StepL Context m ⟨.lockOp, false⟩ (lock m)
  | reinitStep (m : UnlockMachine Context) (h : OpName.reinitOp ∈ availableOperations m.state) :
      StepL Context m ⟨.reinitOp, false⟩ ( reinitialize m)

/-- Modelled from the spec: the `IssuanceFlowState` tagged variant held by the abstract
base class `ReceivePidUseCaseFlow`, which is not among the provided sources (only the
concrete subclass `ReceivePidUseCaseCFlow` is). -/
inductive IssuanceFlowState where
  | notStarted
  | authorizing
  | awaitingUserPresence
  | retrieveCredential
  | flowError
  | done
deriving DecidableEq, Repr

/-- A credential record as seen by `retrieveCredentials`: only its declared `type` tag is
inspected. -/
structure CredentialRecord where
  type : String
deriving DecidableEq, Repr

/-- Modelled from the spec: the state the abstract base class `ReceivePidUseCaseFlow`
holds for a flow instance — the current `IssuanceFlowState` and the `accessToken`
populated when authorization completes. -/
structure PidFlow where
  state : IssuanceFlowState
  accessToken : Option String
deriving DecidableEq, Repr

/-- Modelled from the spec: `handleError` of the abstract base class
`ReceivePidUseCaseFlow` — it centralizes the transition to the `Error` terminal state for
non-recoverable failures. -/
def handleError (f : PidFlow) : PidFlow :=
  { f with state := .flowError }

/-- Modelled from the spec: `assertState` of the abstract base class
`ReceivePidUseCaseFlow` — the contract check that the flow is in the expected phase;
the model returns whether the check passes (the source throws when it does not). -/
def assertState (f : PidFlow) (expectedState : IssuanceFlowState) : Bool :=
  f.state = expectedState

/-- Errors `retrieveCredentials` can surface: the `assertState` contract violation, the
missing-access-token contract violation, a `BiometricAuthenticationError` thrown by the
protocol client, the `Unexpected record type` error, or any other client failure. -/
inductive RetrieveError where
  | invalidState
  | missingAccessToken
  | biometricAuthenticationError
  | unexpectedRecordType (tag : String)
  | clientError
deriving DecidableEq, Repr

/-- Outcome of the awaited `receiveCredentialFromOpenId4VciOffer` call: a list of
records, a thrown `BiometricAuthenticationError`, or any other thrown error. -/
inductive ClientOutcome where
  | records (rs : List CredentialRecord)
  | biometricError
  | otherError
deriving DecidableEq, Repr

/-- The type-tag check of the validation loop: a record passes when its `type` is
`'SdJwtVcRecord'` or `'MdocRecord'`. -/
def expectedRecordType (tag : String) : Bool :=
  tag = "SdJwtVcRecord" || tag = "MdocRecord"

/-- The validation loop of `retrieveCredentials`: walks the records in order and reports
the `type` tag of the first record outside the expected set, at which the source throws
`Unexpected record type`. -/
def firstUnexpectedType : List CredentialRecord → Option String
  | [] => none
  | r :: rs => if expectedRecordType r.type then firstUnexpectedType rs else some r.type

/-- Body of the `try` block of `retrieveCredentials`: the `assertState` contract check,
the access-token contract check, the client call, and the record-type validation loop. -/
def retrieveCredentialsBody (f : PidFlow) (outcome : ClientOutcome) :
    Except RetrieveError (List CredentialRecord) :=
  if !(assertState f .retrieveCredential) then .error .invalidState
  else if f.accessToken.isNone then .error .missingAccessToken
  else
    match outcome with
    | .biometricError => .error .biometricAuthenticationError
    | .otherError => .error .clientError
    | .records rs =>
      match firstUnexpectedType rs with
      | some tag => .error (.unexpectedRecordType tag)
      | none => .ok rs

/-- The whole of `ReceivePidUseCaseCFlow.retrieveCredentials`: the `try` body together
with the `catch` block, which re-throws a `BiometricAuthenticationError` without touching
the flow state and routes every other error through `handleError` before re-throwing.
Returns the resulting flow state and what the call returns or throws. -/
def retrieveCredentials (f : PidFlow) (outcome : ClientOutcome) :
    PidFlow × Except RetrieveError (List CredentialRecord) :=
  match retrieveCredentialsBody f outcome with
  | .ok rs => (f, .ok rs)
  | .error .biometricAuthenticationError => (f, .error .biometricAuthenticationError)
  | .error e => (handleError f, .error e)

/-- The machine reached by running the automatic `initializing` query against a store
that has a salt and biometry capability: the fresh `'locked'` machine with no biometric
attempts yet. -/
def lockedFresh : UnlockMachine Unit :=
  initializeStep initialMachine (some "salt") true

/-- Iterated biometric unlock attempts in which the store call always throws a
non-`userCancelled` error, each call running on the snapshot produced by the previous
one. -/
def applyBioFailures {Context : Type} : Nat → UnlockMachine Context → UnlockMachine Context
  | 0, m => m
  | n + 1, m => applyBioFailures n (tryUnlockingUsingBiometrics m (.err .other)).1

/-- Sample machine in the `'acquired-wallet-key'` state, as produced by a successful
biometric unlock from `lockedFresh`. -/
def acquiredSample : UnlockMachine Unit :=
  (tryUnlockingUsingBiometrics lockedFresh (.ok (some "walletkey"))).1

theorem firstUnexpectedType_isSome_of_mem {rs : List CredentialRecord}
    {r : CredentialRecord} (hr : r ∈ rs) (hbad : expectedRecordType r.type = false) :
    ∃ tag, firstUnexpectedType rs = some tag := by
  induction rs with
  | nil => cases hr
  | cons a as ih =>
    by_cases ha : expectedRecordType a.type = true
    · rcases List.mem_cons.mp hr with h | h
      · rw [h] at hbad; rw [ha] at hbad; cases hbad
      · obtain ⟨tag, htag⟩ := ih h
        exact ⟨tag, by simp [firstUnexpectedType, ha, htag]⟩
    · exact ⟨a.type, by simp [firstUnexpectedType, ha]⟩

/-- C1: the claim says that after 4 consecutive non-`userCancelled` biometric failures
from the Locked state `can_try_biometrics` is false.  Evaluating the code at that failing
input: after 4 such failures from a fresh locked session the stored attempt counter is 4
but `canTryUnlockingUsingBiometrics` is still true, because the catch block compares the
closure-captured pre-increment counter (`3 > 3`); only the 5th consecutive failure
revokes it. -/
theorem C1_fourth_failure_does_not_revoke :
    (applyBioFailures 4 lockedFresh).canTryUnlockingUsingBiometrics = true ∧
    (applyBioFailures 4 lockedFresh).biometricsUnlockAttempts = 4 ∧
    (applyBioFailures 5 lockedFresh).canTryUnlockingUsingBiometrics = false := by
  refine ⟨rfl, rfl, rfl⟩

/-- C2: from the retrieve-credential state with an access token, a
`BiometricAuthenticationError` thrown by the protocol client is re-thrown with the flow
state left unchanged (not `Error`), and a subsequent call with the same token in which
the client returns only expected-type records succeeds. -/
theorem C2_biometric_error_is_recoverable (f : PidFlow) (t : String)
    (hs : f.state = .retrieveCredential) (ht : f.accessToken = some t) :
    retrieveCredentials f .biometricError
      = (f, .error .biometricAuthenticationError) ∧
    ∀ rs : List CredentialRecord, firstUnexpectedType rs = none →
      retrieveCredentials f (.records rs) = (f, .ok rs) := by
  constructor
  · simp [retrieveCredentials, retrieveCredentialsBody, assertState, hs, ht]
  · intro rs hrs
    simp [retrieveCredentials, retrieveCredentialsBody, assertState, hs, ht, hrs]

theorem C2_witness :
    (PidFlow.mk .retrieveCredential (some "token")).state = .retrieveCredential ∧
    (PidFlow.mk .retrieveCredential (some "token")).accessToken = some "token" ∧
    (retrieveCredentials (PidFlow.mk .retrieveCredential (some "token")) .biometricError
        = (PidFlow.mk .retrieveCredential (some "token"),
            .error .biometricAuthenticationError) ∧
      ∀ rs : List CredentialRecord, firstUnexpectedType rs = none →
        retrieveCredentials (PidFlow.mk .retrieveCredential (some "token")) (.records rs)
          = (PidFlow.mk .retrieveCredential (some "token"), .ok rs)) :=
  ⟨rfl, rfl,
    C2_biometric_error_is_recoverable (PidFlow.mk .retrieveCredential (some "token"))
      "token" rfl rfl⟩

/-- C3: from the retrieve-credential state with an access token, if the client returns a
record whose type is neither `SdJwtVcRecord` nor `MdocRecord`, the call throws an
unexpected-record-type error and the flow lands in the `Error` state via `handleError`. -/
theorem C3_unexpected_record_type_is_fatal (f : PidFlow) (t : String)
    (rs : List CredentialRecord) (r : CredentialRecord)
    (hs : f.state = .retrieveCredential) (ht : f.accessToken = some t)
    (hr : r ∈ rs) (hbad : expectedRecordType r.type = false) :
    (retrieveCredentials f (.records rs)).1.state = .flowError ∧
    ∃ tag, (retrieveCredentials f (.records rs)).2 = .error (.unexpectedRecordType tag) := by
  obtain ⟨tag, htag⟩ := firstUnexpectedType_isSome_of_mem hr hbad
  refine ⟨?_, tag, ?_⟩ <;>
    simp [retrieveCredentials, retrieveCredentialsBody, assertState, handleError,
      hs, ht, htag]

theorem C3_witness :
    (PidFlow.mk .retrieveCredential (some "token2")).state = .retrieveCredential ∧
    (PidFlow.mk .retrieveCredential (some "token2")).accessToken = some "token2" ∧
    CredentialRecord.mk "W3cCredentialRecord" ∈ [CredentialRecord.mk "W3cCredentialRecord"] ∧
    expectedRecordType (CredentialRecord.mk "W3cCredentialRecord").type = false ∧
    ((retrieveCredentials (PidFlow.mk .retrieveCredential (some "token2"))
        (.records [CredentialRecord.mk "W3cCredentialRecord"])).1.state = .flowError ∧
      ∃ tag, (retrieveCredentials (PidFlow.mk .retrieveCredential (some "token2"))
        (.records [CredentialRecord.mk "W3cCredentialRecord"])).2
          = .error (.unexpectedRecordType tag)) :=
  ⟨rfl, rfl, List.mem_singleton.mpr rfl, by decide,
    C3_unexpected_record_type_is_fatal (PidFlow.mk .retrieveCredential (some "token2"))
      "token2" [CredentialRecord.mk "W3cCredentialRecord"]
      (CredentialRecord.mk "W3cCredentialRecord") rfl rfl (List.mem_singleton.mpr rfl)
      (by decide)⟩

/-- C4: from the Locked state with `canTryUnlockingUsingBiometrics` true, a
`userCancelled` keychain failure makes the call return null with biometrics revoked and
the state still Locked, whatever the prior attempt count. -/
theorem C4_user_cancelled_revokes_biometrics (Context : Type) (m : UnlockMachine Context)
    (hs : m.state = .locked) (hc : m.canTryUnlockingUsingBiometrics = true) :
    (tryUnlockingUsingBiometrics m (.err .userCancelled)).2 = none ∧
    (tryUnlockingUsingBiometrics m (.err .userCancelled)).1.canTryUnlockingUsingBiometrics
      = false ∧
    (tryUnlockingUsingBiometrics m (.err .userCancelled)).1.state = .locked := by
  simp [tryUnlockingUsingBiometrics, hc, hs]

theorem C4_witness :
    lockedFresh.state = .locked ∧ lockedFresh.canTryUnlockingUsingBiometrics = true ∧
    ((tryUnlockingUsingBiometrics lockedFresh (.err .userCancelled)).2 = none ∧
      (tryUnlockingUsingBiometrics lockedFresh
        (.err .userCancelled)).1.canTryUnlockingUsingBiometrics = false ∧
      (tryUnlockingUsingBiometrics lockedFresh (.err .userCancelled)).1.state = .locked) :=
  ⟨rfl, rfl, C4_user_cancelled_revokes_biometrics Unit lockedFresh rfl rfl⟩

/-- C5: from the key-acquired state, `setWalletKeyValid` invokes
`secureWalletKey.storeWalletKey` exactly when `canUseBiometrics` (recorded at
initialization) is true and the caller passed `enableBiometrics = true`; and across every
operation of the machine, only `setWalletKeyValid` ever writes the wallet key to durable
storage. -/
theorem C5_persistence_only_on_set_wallet_key_valid (Context : Type)
    (m : UnlockMachine Context) (ctx : Context) (enable : Bool)
    (so : Except String Unit) (hs : m.state = .acquiredWalletKey) :
    ((setWalletKeyValid m ctx enable so).2.2 = true ↔
      (m.canUseBiometrics = some true ∧ enable = true)) ∧
    ∀ (m2 : UnlockMachine Context) (l : StepLabel) (m3 : UnlockMachine Context),
      StepL Context m2 l m3 → l.wroteKey = true → l.op = .setKeyValidOp := by
  constructor
  · cases hcb : m.canUseBiometrics with
    | none => simp [setWalletKeyValid, hcb]
    | some b => cases b <;> cases enable <;> simp [setWalletKeyValid, hcb]
  · intro m2 l m3 hstep hw
    cases hstep <;> simp_all

theorem C5_witness :
    acquiredSample.state = .acquiredWalletKey ∧
    (((setWalletKeyValid acquiredSample () true (.ok ())).2.2 = true ↔
        (acquiredSample.canUseBiometrics = some true ∧ true = true)) ∧
      ∀ (m2 : UnlockMachine Unit) (l : StepLabel) (m3 : UnlockMachine Unit),
        StepL Unit m2 l m3 → l.wroteKey = true → l.op = .setKeyValidOp) :=
  ⟨rfl, C5_persistence_only_on_set_wallet_key_valid Unit acquiredSample () true
    (.ok ()) rfl⟩

/-- C6: from the Locked state, `unlockUsingPin` on a failed store retrieval leaves the
state Locked and propagates the error, on success moves to key-acquired with method Pin
and returns the key, and resets `isUnlocking` to false in both cases. -/
theorem C6_unlock_using_pin_outcomes (Context : Type) (m : UnlockMachine Context)
    (e k : String) (hs : m.state = .locked) :
    ((unlockUsingPin m (.error e)).1.state = .locked ∧
      (unlockUsingPin m (.error e)).2 = .error e ∧
      (unlockUsingPin m (.error e)).1.isUnlocking = false) ∧
    ((unlockUsingPin m (.ok k)).1.state = .acquiredWalletKey ∧
      (unlockUsingPin m (.ok k)).1.unlockMethod = some .pin ∧
      (unlockUsingPin m (.ok k)).2 = .ok k ∧
      (unlockUsingPin m (.ok k)).1.isUnlocking = false) := by
  simp [unlockUsingPin, hs]

theorem C6_witness :
    lockedFresh.state = .locked ∧
    (((unlockUsingPin lockedFresh (.error "wrong-pin")).1.state = .locked ∧
        (unlockUsingPin lockedFresh (.error "wrong-pin")).2 = .error "wrong-pin" ∧
        (unlockUsingPin lockedFresh (.error "wrong-pin")).1.isUnlocking = false) ∧
      ((unlockUsingPin lockedFresh (.ok "key")).1.state = .acquiredWalletKey ∧
        (unlockUsingPin lockedFresh (.ok "key")).1.unlockMethod = some .pin ∧
        (unlockUsingPin lockedFresh (.ok "key")).2 = .ok "key" ∧
        (unlockUsingPin lockedFresh (.ok "key")).1.isUnlocking = false)) :=
  ⟨rfl, C6_unlock_using_pin_outcomes Unit lockedFresh "wrong-pin" "key" rfl⟩

/-- C7: from the key-acquired state, `setWalletKeyInvalid` moves to Locked with the
wallet key and unlock method cleared, and revokes `canTryUnlockingUsingBiometrics` when
the key had been acquired via biometrics. -/
theorem C7_set_wallet_key_invalid_locks (Context : Type) (m : UnlockMachine Context)
    (hs : m.state = .acquiredWalletKey) :
    (setWalletKeyInvalid m).state = .locked ∧
    (setWalletKeyInvalid m).walletKey = none ∧
    (setWalletKeyInvalid m).unlockMethod = none ∧
    (m.unlockMethod = some .biometrics →
      (setWalletKeyInvalid m).canTryUnlockingUsingBiometrics = false) := by
  refine ⟨rfl, rfl, rfl, ?_⟩
  intro hu
  simp [setWalletKeyInvalid, hu]

theorem C7_witness :
    acquiredSample.state = .acquiredWalletKey ∧
    ((setWalletKeyInvalid acquiredSample).state = .locked ∧
      (setWalletKeyInvalid acquiredSample).walletKey = none ∧
      (setWalletKeyInvalid acquiredSample).unlockMethod = none ∧
      (acquiredSample.unlockMethod = some .biometrics →
        (setWalletKeyInvalid acquiredSample).canTryUnlockingUsingBiometrics = false)) :=
  ⟨rfl, C7_set_wallet_key_invalid_locks Unit acquiredSample rfl⟩

/-- C8 counterexample: the claim says `reinitialize` is available in every state, but the
object the hook returns in the `'initializing'` state carries no operations at all, so
`reinitialize` is not available there. -/
theorem C8_counterexample_reinit_unavailable_while_initializing :
    OpName.reinitOp ∉ availableOperations SecureUnlockState.initializing := by
  decide

/-- C8 (amended): `reinitialize` is available in every state except Initializing; from
every state it yields the Initializing state with the wallet key, unlock method, context,
attempt counter and biometric flags reset to their initial values, and it is
idempotent. -/
theorem C8_reinit_resets_and_is_idempotent (s : SecureUnlockState)
    (hns : s ≠ SecureUnlockState.initializing) (Context : Type)
    (m : UnlockMachine Context) :
    OpName.reinitOp ∈ availableOperations s ∧
    reinitialize m = initialMachine ∧
    reinitialize ( reinitialize m) = reinitialize m := by
  refine ⟨?_, rfl, rfl⟩
  cases s with
  | initializing => exact absurd rfl hns
  | notConfigured => decide
  | locked => decide
  | acquiredWalletKey => decide
  | unlocked => decide

theorem C8_witness :
    SecureUnlockState.locked ≠ SecureUnlockState.initializing ∧
    (OpName.reinitOp ∈ availableOperations SecureUnlockState.locked ∧
      reinitialize (initialMachine : UnlockMachine Unit) = initialMachine ∧
      reinitialize ( reinitialize (initialMachine : UnlockMachine Unit))
        = reinitialize initialMachine) :=
  ⟨by decide, C8_reinit_resets_and_is_idempotent SecureUnlockState.locked (by decide)
    Unit initialMachine⟩

/-- C9: `setWalletKeyValid` records the context and moves to Unlocked before awaiting the
durable write, so when `storeWalletKey` fails the machine is left Unlocked and the error
propagates — the transition is not rolled back. -/
theorem C9_unlocked_despite_store_failure (Context : Type) (m : UnlockMachine Context)
    (ctx : Context) (e : String) (hs : m.state = .acquiredWalletKey)
    (hb : m.canUseBiometrics = some true) :
    (setWalletKeyValid m ctx true (.error e)).1.state = .unlocked ∧
    (setWalletKeyValid m ctx true (.error e)).1.context = some ctx ∧
    (setWalletKeyValid m ctx true (.error e)).2.1 = .error e := by
  simp [setWalletKeyValid, hb]

theorem C9_witness :
    acquiredSample.state = .acquiredWalletKey ∧
    acquiredSample.canUseBiometrics = some true ∧
    ((setWalletKeyValid acquiredSample () true (.error "disk-full")).1.state = .unlocked ∧
      (setWalletKeyValid acquiredSample () true (.error "disk-full")).1.context = some () ∧
      (setWalletKeyValid acquiredSample () true (.error "disk-full")).2.1
        = .error "disk-full") :=
  ⟨rfl, rfl, C9_unlocked_despite_store_failure Unit acquiredSample () "disk-full" rfl rfl⟩

/-- C10: from the Locked state with biometrics still allowed, a biometric retrieval that
resolves without a key returns that absent value, leaves the state Locked, increments the
attempt counter, and does not revoke `canTryUnlockingUsingBiometrics`, whatever the prior
attempt count. -/
theorem C10_absent_key_keeps_biometrics (Context : Type) (m : UnlockMachine Context)
    (hs : m.state = .locked) (hc : m.canTryUnlockingUsingBiometrics = true) :
    (tryUnlockingUsingBiometrics m (.ok none)).2 = none ∧
    (tryUnlockingUsingBiometrics m (.ok none)).1.state = .locked ∧
    (tryUnlockingUsingBiometrics m (.ok none)).1.biometricsUnlockAttempts
      = m.biometricsUnlockAttempts + 1 ∧
    (tryUnlockingUsingBiometrics m (.ok none)).1.canTryUnlockingUsingBiometrics = true := by
  simp [tryUnlockingUsingBiometrics, jsTruthy, hc, hs]

theorem C10_witness :
    lockedFresh.state = .locked ∧ lockedFresh.canTryUnlockingUsingBiometrics = true ∧
    ((tryUnlockingUsingBiometrics lockedFresh (.ok none)).2 = none ∧
      (tryUnlockingUsingBiometrics lockedFresh (.ok none)).1.state = .locked ∧
      (tryUnlockingUsingBiometrics lockedFresh (.ok none)).1.biometricsUnlockAttempts
        = lockedFresh.biometricsUnlockAttempts + 1 ∧
      (tryUnlockingUsingBiometrics lockedFresh
        (.ok none)).1.canTryUnlockingUsingBiometrics = true) :=
  ⟨rfl, rfl, C10_absent_key_keeps_biometrics Unit lockedFresh rfl rfl⟩
